import Mathlib

/-
Verification of src/include/seastar/core/scheduling_specific.hh: the per-core,
per-scheduling-group typed storage table, its typed accessors, and the
asynchronous map/reduce aggregator over the initialized slots of one core.

Modelling conventions.  A scheduling group is identified by its index
(the source computes it with internal::scheduling_group_index(sg)), so a
scheduling group is a Nat here.  The stored handles (void pointers cast to
the asserted type T) are modelled by an abstract value type Val: the
reinterpret cast is invisible once the value is typed, and the type-descriptor
check of the verification build is modelled separately by carrying the
runtime descriptor as a Nat (std::type_index is an opaque identity).
Reads past the end of a vector, undefined behaviour in the source, are
modelled with List.getD and are fenced off by in-range hypotheses in the
theorems that need the read to be the actual stored element.
-/

/-- Registry entry for one specific-data key (scheduling_group_key_config):
only the type descriptor recorded at registration is observable in this
excerpt. -/
structure scheduling_group_key_config where
  type_index : Nat
deriving DecidableEq, Repr

/-- A specific-data key (scheduling_group_key): carries the stable integer id
returned by registration (key.id() in the source). -/
structure scheduling_group_key where
  id : Nat
deriving DecidableEq, Repr

/-- Per-core, per-scheduling-group record (per_scheduling_group of
scheduling_group_specific_thread_local_data): the initialized flag and the
vector of stored value handles, one per registered key. -/
structure per_scheduling_group (Val : Type) where
  queue_is_initialized : Bool
  specific_vals : List Val
deriving DecidableEq, Repr

instance (Val : Type) : Inhabited (per_scheduling_group Val) :=
  ⟨⟨false, []⟩⟩

/-- The per-core table (scheduling_group_specific_thread_local_data): the
array of per-scheduling-group slots, indexed by scheduling-group index, and
the shared sequence of key configurations. -/
structure scheduling_group_specific_thread_local_data (Val : Type) where
  per_scheduling_group_data : List (per_scheduling_group Val)
  scheduling_group_key_configs : List scheduling_group_key_config
deriving DecidableEq, Repr

/-- Result of an accessor that returns a reference: either the call reached
no_such_scheduling_group (which never returns), or it dereferenced a null
pointer (undefined behaviour in the source), or it produced the referent. -/
inductive access_result (Val : Type) where
  | fatal_no_such_group : access_result Val
  | null_deref : access_result Val
  | value : Val → access_result Val
deriving DecidableEq, Repr

/-- scheduling_group_get_specific_ptr (non-verification build, lines 67-79):
if the scheduling-group index is inside the table and the slot is
initialized, return the stored handle for the key, otherwise return null
(modelled as none). -/
def scheduling_group_get_specific_ptr {Val : Type} [Inhabited Val]
    (data : scheduling_group_specific_thread_local_data Val)
    (sg_id : Nat) (key : scheduling_group_key) : Option Val :=
  if sg_id < data.per_scheduling_group_data.length ∧
      (data.per_scheduling_group_data.getD sg_id default).queue_is_initialized then
    some ((data.per_scheduling_group_data.getD sg_id default).specific_vals.getD key.id default)
  else
    none

/-- Result of scheduling_group_get_specific_ptr in the verification build
(SEASTAR_DEBUG): either the assert on the recorded type descriptor failed
(fatal), or the assert passed and the plain pointer lookup ran. -/
inductive debug_access (Val : Type) where
  | assert_failed : debug_access Val
  | checked : Option Val → debug_access Val
deriving DecidableEq, Repr

/-- scheduling_group_get_specific_ptr in the verification build: first the
assert compares the descriptor of the requested type T (t_index) with the
descriptor recorded in scheduling_group_key_configs for the key, and only
then does the range and initialization check of the plain build run. -/
def scheduling_group_get_specific_ptr_debug {Val : Type} [Inhabited Val]
    (data : scheduling_group_specific_thread_local_data Val)
    (t_index : Nat) (sg_id : Nat) (key : scheduling_group_key) : debug_access Val :=
  if t_index = (data.scheduling_group_key_configs.getD key.id ⟨0⟩).type_index then
    debug_access.checked (scheduling_group_get_specific_ptr data sg_id key)
  else
    debug_access.assert_failed

/-- The two-argument scheduling_group_get_specific (lines 91-98): looks up
the pointer and calls no_such_scheduling_group when it is null, otherwise
dereferences it. -/
def scheduling_group_get_specific {Val : Type} [Inhabited Val]
    (data : scheduling_group_specific_thread_local_data Val)
    (sg_id : Nat) (key : scheduling_group_key) : access_result Val :=
  match scheduling_group_get_specific_ptr data sg_id key with
  | none => access_result.fatal_no_such_group
  | some v => access_result.value v

/-- The one-argument scheduling_group_get_specific (lines 107-110): it
dereferences the result of scheduling_group_get_specific_ptr on the current
scheduling group directly, with no null check; a null pointer is dereferenced
(undefined behaviour), modelled as null_deref.  current_scheduling_group()
is passed in as current_sg. -/
def scheduling_group_get_specific_current {Val : Type} [Inhabited Val]
    (data : scheduling_group_specific_thread_local_data Val)
    (current_sg : Nat) (key : scheduling_group_key) : access_result Val :=
  match scheduling_group_get_specific_ptr data current_sg key with
  | none => access_result.null_deref
  | some v => access_result.value v

/-- Modelled from the spec: the generic asynchronous fold-over-sequence
primitive (map_reduce of the async runtime, consumed by this header but not
part of this excerpt).  It applies the mapper to each element in sequence
order, folds the intermediate values left-to-right into the initial
accumulator, resolves with the final accumulator, or fails with the first
failure encountered, abandoning the remaining folds.  A failed future is an
Except.error. -/
def map_reduce {A E B I : Type} (xs : List A) (mapper : A → Except E B)
    (initial_val : I) (reducer : I → B → I) : Except E I :=
  match xs with
  | [] => Except.ok initial_val
  | x :: rest =>
    match mapper x with
    | Except.error e => Except.error e
    | Except.ok b => map_reduce rest mapper (reducer initial_val b) reducer

/-- map_reduce_scheduling_group_specific (lines 127-146): filters the
per-scheduling-group array down to the initialized slots, wraps the mapper so
it reads the stored handle of the key from each slot, and hands the filtered
sequence, the wrapped mapper, the initial value and the reducer to the generic
map_reduce.  A mapper failure is an Except.error. -/
def map_reduce_scheduling_group_specific {Val E B I : Type} [Inhabited Val]
    (mapper : Val → Except E B) (reducer : I → B → I) (initial_val : I)
    (key : scheduling_group_key)
    (data : scheduling_group_specific_thread_local_data Val) : Except E I :=
  map_reduce
    (data.per_scheduling_group_data.filter (fun psg => psg.queue_is_initialized))
    (fun psg => mapper (psg.specific_vals.getD key.id default))
    initial_val reducer

/-- reduce_scheduling_group_specific (lines 161-179): same as the map variant
but the internal mapper just reads the stored handle of the key and wraps it
in a ready future. -/
def reduce_scheduling_group_specific {Val E I : Type} [Inhabited Val]
    (reducer : I → Val → I) (initial_val : I)
    (key : scheduling_group_key)
    (data : scheduling_group_specific_thread_local_data Val) : Except E I :=
  map_reduce
    (data.per_scheduling_group_data.filter (fun psg => psg.queue_is_initialized))
    (fun psg => Except.ok (psg.specific_vals.getD key.id default))
    initial_val reducer

/-- Statement-level embedding of the body of scheduling_group_get_specific_ptr
as a state transformer over the thread-local table: the body only reads the
state. -/
def scheduling_group_get_specific_ptr_st {Val : Type} [Inhabited Val]
    (sg_id : Nat) (key : scheduling_group_key) :
    StateM (scheduling_group_specific_thread_local_data Val) (Option Val) := do
  let data ← StateT.get
  if sg_id < data.per_scheduling_group_data.length ∧
      (data.per_scheduling_group_data.getD sg_id default).queue_is_initialized then
    return some ((data.per_scheduling_group_data.getD sg_id default).specific_vals.getD key.id default)
  else
    return none

/-- Statement-level embedding of the two-argument scheduling_group_get_specific
as a state transformer. -/
def scheduling_group_get_specific_st {Val : Type} [Inhabited Val]
    (sg_id : Nat) (key : scheduling_group_key) :
    StateM (scheduling_group_specific_thread_local_data Val) (access_result Val) := do
  let p ← scheduling_group_get_specific_ptr_st sg_id key
  match p with
  | none => return access_result.fatal_no_such_group
  | some v => return access_result.value v

/-- Statement-level embedding of the one-argument scheduling_group_get_specific
as a state transformer. -/
def scheduling_group_get_specific_current_st {Val : Type} [Inhabited Val]
    (current_sg : Nat) (key : scheduling_group_key) :
    StateM (scheduling_group_specific_thread_local_data Val) (access_result Val) := do
  let p ← scheduling_group_get_specific_ptr_st current_sg key
  match p with
  | none => return access_result.null_deref
  | some v => return access_result.value v

/- Helper lemmas shared by the aggregation theorems. -/

theorem map_reduce_all_ok {A E B I : Type} (xs : List A) (f : A → B)
    (initial_val : I) (reducer : I → B → I) :
    map_reduce xs (fun a => (Except.ok (f a) : Except E B)) initial_val reducer
      = Except.ok (xs.foldl (fun acc a => reducer acc (f a)) initial_val) := by
  induction xs generalizing initial_val with
  | nil => rfl
  | cons x rest ih => simp [map_reduce, ih]

theorem map_reduce_first_error {A E B I : Type} (l1 : List A) (x : A) (l2 : List A)
    (mapper : A → Except E B) (initial_val : I) (reducer : I → B → I) (e : E)
    (hok : ∀ y ∈ l1, ∃ b, mapper y = Except.ok b)
    (he : mapper x = Except.error e) :
    map_reduce (l1 ++ x :: l2) mapper initial_val reducer = Except.error e := by
  induction l1 generalizing initial_val with
  | nil => simp [map_reduce, he]
  | cons y ys ih =>
    obtain ⟨b, hb⟩ := hok y (List.mem_cons_self y ys)
    simp only [List.cons_append, map_reduce, hb]
    exact ih (reducer initial_val b) (fun z hz => hok z (List.mem_cons_of_mem y hz))

theorem enum_filter_map_snd {A : Type} (P : A → Bool) (l : List A) :
    (l.enum.filter (fun p => P p.2)).map Prod.snd = l.filter P := by
  have h : (l.enum.map Prod.snd).filter P
      = (l.enum.filter (P ∘ Prod.snd)).map Prod.snd :=
    List.filter_map Prod.snd l.enum
  rw [List.enum_map_snd] at h
  have h2 : (l.enum.filter (P ∘ Prod.snd)).map Prod.snd
      = (l.enum.filter (fun p => P p.2)).map Prod.snd := rfl
  rw [h2] at h
  exact h.symm

theorem enum_filter_map_fst_pairwise {A : Type} (P : Nat × A → Bool) (l : List A) :
    ((l.enum.filter P).map Prod.fst).Pairwise (· < ·) := by
  have hsub : List.Sublist ((l.enum.filter P).map Prod.fst) (l.enum.map Prod.fst) :=
    (List.filter_sublist l.enum).map Prod.fst
  rw [List.enum_map_fst] at hsub
  exact (List.pairwise_lt_range l.length).sublist hsub

/- Concrete tables used by the witnesses and the counterexample. -/

/-- A core whose table has one scheduling group whose slot is not
initialized; one key is registered with descriptor 5. -/
def uninitialized_slot_table : scheduling_group_specific_thread_local_data Nat :=
  ⟨[⟨false, []⟩], [⟨5⟩]⟩

/-- A core with three initialized groups holding 5, 7, 3 for the single key,
and a fourth, uninitialized group. -/
def three_slot_table : scheduling_group_specific_thread_local_data Nat :=
  ⟨[⟨true, [5]⟩, ⟨true, [7]⟩, ⟨true, [3]⟩, ⟨false, []⟩], [⟨0⟩]⟩

/-- A core on which no scheduling group is initialized. -/
def empty_core_table : scheduling_group_specific_thread_local_data Nat :=
  ⟨[⟨false, []⟩, ⟨false, []⟩], [⟨0⟩]⟩

/-- C2: scheduling_group_get_specific_ptr returns absent exactly when the
scheduling-group index is out of the table range or the slot is not
initialized on this core; otherwise it returns the stored value handle for
the key. -/
theorem get_specific_ptr_absent_iff_out_of_range_or_uninitialized
    {Val : Type} [Inhabited Val]
    (data : scheduling_group_specific_thread_local_data Val)
    (sg_id : Nat) (key : scheduling_group_key) :
    (scheduling_group_get_specific_ptr data sg_id key = none
      ↔ (data.per_scheduling_group_data.length ≤ sg_id
          ∨ (data.per_scheduling_group_data.getD sg_id default).queue_is_initialized = false))
    ∧ (scheduling_group_get_specific_ptr data sg_id key = none
      ∨ scheduling_group_get_specific_ptr data sg_id key
          = some ((data.per_scheduling_group_data.getD sg_id default).specific_vals.getD
              key.id default)) := by
  unfold scheduling_group_get_specific_ptr
  by_cases h : sg_id < data.per_scheduling_group_data.length ∧
      (data.per_scheduling_group_data.getD sg_id default).queue_is_initialized
  · rw [if_pos h]
    refine ⟨⟨fun hcontra => Option.noConfusion hcontra, fun hdisj => ?_⟩, Or.inr rfl⟩
    rcases hdisj with h1 | h2
    · exact absurd h.1 (Nat.not_lt.2 h1)
    · rw [h2] at h
      exact Bool.noConfusion h.2
  · rw [if_neg h]
    refine ⟨⟨fun _ => ?_, fun _ => rfl⟩, Or.inl rfl⟩
    rcases Nat.lt_or_ge sg_id data.per_scheduling_group_data.length with h1 | h1
    · refine Or.inr ?_
      cases hq : (data.per_scheduling_group_data.getD sg_id default).queue_is_initialized
      · rfl
      · exact absurd ⟨h1, hq⟩ h
    · exact Or.inl h1

/-- C3: the two-argument scheduling_group_get_specific reaches the fatal
no_such_scheduling_group call exactly when the pointer variant is absent, and
otherwise produces the referent the pointer variant points to. -/
theorem get_specific_fatal_iff_ptr_absent
    {Val : Type} [Inhabited Val]
    (data : scheduling_group_specific_thread_local_data Val)
    (sg_id : Nat) (key : scheduling_group_key) :
    (scheduling_group_get_specific data sg_id key = access_result.fatal_no_such_group
      ↔ scheduling_group_get_specific_ptr data sg_id key = none)
    ∧ scheduling_group_get_specific data sg_id key
        = Option.elim (scheduling_group_get_specific_ptr data sg_id key)
            access_result.fatal_no_such_group access_result.value := by
  cases h : scheduling_group_get_specific_ptr data sg_id key <;>
    simp [scheduling_group_get_specific, h]

/-- C4 counterexample: on a core whose group 0 has an uninitialized slot, the
one-argument accessor running in group 0 dereferences the null pointer
returned by the pointer variant (undefined behaviour), while the two-argument
must-exist accessor reaches the fatal no_such_scheduling_group call; the two
overloads therefore do not behave alike on an absent slot. -/
theorem current_accessor_skips_null_check_counterexample :
    scheduling_group_get_specific_current uninitialized_slot_table 0 ⟨0⟩
        = access_result.null_deref
    ∧ scheduling_group_get_specific uninitialized_slot_table 0 ⟨0⟩
        = access_result.fatal_no_such_group
    ∧ scheduling_group_get_specific_current uninitialized_slot_table 0 ⟨0⟩
        ≠ scheduling_group_get_specific uninitialized_slot_table 0 ⟨0⟩ := by
  decide

/-- C4 (amended): the one-argument scheduling_group_get_specific dereferences
the result of the pointer variant on the current scheduling group with no
null check: when the slot of the current group is not initialized on this
core it dereferences a null pointer (undefined behaviour) instead of reaching
the fatal no_such_scheduling_group path, and it agrees with the two-argument
must-exist accessor exactly when the pointer variant is present. -/
theorem current_accessor_amended
    {Val : Type} [Inhabited Val]
    (data : scheduling_group_specific_thread_local_data Val)
    (current_sg : Nat) (key : scheduling_group_key) :
    (scheduling_group_get_specific_current data current_sg key = access_result.null_deref
      ↔ scheduling_group_get_specific_ptr data current_sg key = none)
    ∧ (scheduling_group_get_specific_current data current_sg key
          = scheduling_group_get_specific data current_sg key
      ↔ (scheduling_group_get_specific_ptr data current_sg key).isSome = true) := by
  cases h : scheduling_group_get_specific_ptr data current_sg key <;>
    simp [scheduling_group_get_specific_current, scheduling_group_get_specific, h]

/-- A core with one initialized group holding 11 for the single key, whose
recorded type descriptor is 5. -/
def typed_slot_table : scheduling_group_specific_thread_local_data Nat :=
  ⟨[⟨true, [11]⟩], [⟨5⟩]⟩

/-- C7: in the verification build, scheduling_group_get_specific_ptr first
asserts that the descriptor recorded for the key equals the descriptor of the
requested type, failing fatally on a mismatch and otherwise running the plain
lookup; in the non-verification build the check is absent: the plain lookup
never consults the recorded descriptors at all. -/
theorem debug_ptr_asserts_type_descriptor
    {Val : Type} [Inhabited Val]
    (data : scheduling_group_specific_thread_local_data Val)
    (t_index sg_id : Nat) (key : scheduling_group_key)
    (hk : key.id < data.scheduling_group_key_configs.length) :
    (t_index ≠ (data.scheduling_group_key_configs.getD key.id ⟨0⟩).type_index
      → scheduling_group_get_specific_ptr_debug data t_index sg_id key
          = debug_access.assert_failed)
    ∧ (t_index = (data.scheduling_group_key_configs.getD key.id ⟨0⟩).type_index
      → scheduling_group_get_specific_ptr_debug data t_index sg_id key
          = debug_access.checked (scheduling_group_get_specific_ptr data sg_id key))
    ∧ (∀ cfgs2 : List scheduling_group_key_config,
        scheduling_group_get_specific_ptr
            (⟨data.per_scheduling_group_data, cfgs2⟩ :
              scheduling_group_specific_thread_local_data Val) sg_id key
          = scheduling_group_get_specific_ptr data sg_id key) := by
  refine ⟨?_, ?_, ?_⟩
  · intro hne
    unfold scheduling_group_get_specific_ptr_debug
    rw [if_neg hne]
  · intro heq
    unfold scheduling_group_get_specific_ptr_debug
    rw [if_pos heq]
  · intro cfgs2
    rfl

/-- Witness for C7 at a concrete table: descriptor 9 differs from the
recorded descriptor 5 of the key, and descriptor 5 matches it. -/
theorem debug_ptr_asserts_type_descriptor_witness :
    ((9 : Nat) ≠ (typed_slot_table.scheduling_group_key_configs.getD 0 ⟨0⟩).type_index
      → scheduling_group_get_specific_ptr_debug typed_slot_table 9 0 ⟨0⟩
          = debug_access.assert_failed)
    ∧ ((9 : Nat) = (typed_slot_table.scheduling_group_key_configs.getD 0 ⟨0⟩).type_index
      → scheduling_group_get_specific_ptr_debug typed_slot_table 9 0 ⟨0⟩
          = debug_access.checked (scheduling_group_get_specific_ptr typed_slot_table 0 ⟨0⟩))
    ∧ (∀ cfgs2 : List scheduling_group_key_config,
        scheduling_group_get_specific_ptr
            (⟨typed_slot_table.per_scheduling_group_data, cfgs2⟩ :
              scheduling_group_specific_thread_local_data Nat) 0 ⟨0⟩
          = scheduling_group_get_specific_ptr typed_slot_table 0 ⟨0⟩) :=
  debug_ptr_asserts_type_descriptor typed_slot_table 9 0 ⟨0⟩ (by decide)

/-- C10: in the verification build the type-descriptor assert runs before the
range and initialization checks: on a mismatch for the key the call is fatal
even when the scheduling group is out of range or its slot is uninitialized,
cases in which the plain lookup would have returned absent without consulting
the descriptor. -/
theorem debug_type_check_precedes_range_check
    {Val : Type} [Inhabited Val]
    (data : scheduling_group_specific_thread_local_data Val)
    (t_index sg_id : Nat) (key : scheduling_group_key)
    (hk : key.id < data.scheduling_group_key_configs.length)
    (habsent : data.per_scheduling_group_data.length ≤ sg_id
        ∨ (data.per_scheduling_group_data.getD sg_id default).queue_is_initialized = false)
    (hne : t_index ≠ (data.scheduling_group_key_configs.getD key.id ⟨0⟩).type_index) :
    scheduling_group_get_specific_ptr_debug data t_index sg_id key
        = debug_access.assert_failed
    ∧ scheduling_group_get_specific_ptr data sg_id key = none := by
  constructor
  · unfold scheduling_group_get_specific_ptr_debug
    rw [if_neg hne]
  · unfold scheduling_group_get_specific_ptr
    rcases habsent with h | h
    · rw [if_neg]
      intro hcon
      exact absurd hcon.1 (Nat.not_lt.2 h)
    · rw [if_neg]
      intro hcon
      rw [h] at hcon
      exact Bool.noConfusion hcon.2

/-- Witness for C10: group 0 has an uninitialized slot and descriptor 9 does
not match the recorded descriptor 5, so the verification build fails the
assert while the plain lookup would have returned absent. -/
theorem debug_type_check_precedes_range_check_witness :
    scheduling_group_get_specific_ptr_debug uninitialized_slot_table 9 0 ⟨0⟩
        = debug_access.assert_failed
    ∧ scheduling_group_get_specific_ptr uninitialized_slot_table 0 ⟨0⟩ = none :=
  debug_type_check_precedes_range_check uninitialized_slot_table 9 0 ⟨0⟩
    (by decide) (by decide) (by decide)

/-- C1: on one core and for one key, both aggregation entry points select
exactly the slots whose initialized flag is true, visit them in ascending
scheduling-group index order (the enumerated indices of the selected slots
are strictly increasing), and fold the intermediate values left-to-right
into the initial accumulator; the order is determined by the table indices
alone. -/
theorem aggregation_visits_initialized_slots_in_ascending_index_order
    {Val E B I J : Type} [Inhabited Val]
    (data : scheduling_group_specific_thread_local_data Val)
    (key : scheduling_group_key) (f : Val → B)
    (reducer : I → B → I) (initial_val : I)
    (reducer2 : J → Val → J) (initial_val2 : J) :
    (((data.per_scheduling_group_data.enum.filter
        (fun p => p.2.queue_is_initialized)).map Prod.fst).Pairwise (· < ·))
    ∧ map_reduce_scheduling_group_specific
        (fun v => (Except.ok (f v) : Except E B)) reducer initial_val key data
      = Except.ok
          (((data.per_scheduling_group_data.enum.filter
              (fun p => p.2.queue_is_initialized)).map Prod.snd).foldl
            (fun acc psg => reducer acc (f (psg.specific_vals.getD key.id default)))
            initial_val)
    ∧ (reduce_scheduling_group_specific reducer2 initial_val2 key data : Except E J)
      = Except.ok
          (((data.per_scheduling_group_data.enum.filter
              (fun p => p.2.queue_is_initialized)).map Prod.snd).foldl
            (fun acc psg => reducer2 acc (psg.specific_vals.getD key.id default))
            initial_val2) := by
  refine ⟨enum_filter_map_fst_pairwise _ _, ?_, ?_⟩
  · unfold map_reduce_scheduling_group_specific
    rw [enum_filter_map_snd]
    exact map_reduce_all_ok _ _ initial_val reducer
  · unfold reduce_scheduling_group_specific
    rw [enum_filter_map_snd]
    exact map_reduce_all_ok _
      (fun psg : per_scheduling_group Val => psg.specific_vals.getD key.id default)
      initial_val2 reducer2

/-- C5: when mapping one of the selected slots fails, the aggregation result
is exactly that first failure: every slot after the failing one, and the
reducer on it, never contributes, and no partial accumulator is exposed, for
any tail of remaining slots and any reducer. -/
theorem aggregation_propagates_first_failure
    {Val E B I : Type} [Inhabited Val]
    (data : scheduling_group_specific_thread_local_data Val)
    (key : scheduling_group_key)
    (mapper : Val → Except E B) (reducer : I → B → I) (initial_val : I)
    (l1 : List (per_scheduling_group Val)) (x : per_scheduling_group Val)
    (l2 : List (per_scheduling_group Val)) (e : E)
    (hsplit : data.per_scheduling_group_data.filter (fun psg => psg.queue_is_initialized)
        = l1 ++ x :: l2)
    (hok : ∀ y ∈ l1, ∃ b, mapper (y.specific_vals.getD key.id default) = Except.ok b)
    (he : mapper (x.specific_vals.getD key.id default) = Except.error e) :
    map_reduce_scheduling_group_specific mapper reducer initial_val key data
      = Except.error e := by
  unfold map_reduce_scheduling_group_specific
  rw [hsplit]
  exact map_reduce_first_error l1 x l2 _ initial_val reducer e hok he

/-- Witness for C5: groups 0, 1, 2 hold 5, 7, 3; the mapper fails on 7, so
the aggregate is that failure and group 2 is never folded. -/
theorem aggregation_propagates_first_failure_witness :
    map_reduce_scheduling_group_specific
      (fun v => if v = 7 then (Except.error "boom" : Except String Nat) else Except.ok v)
      (fun acc b => acc + b) 0 ⟨0⟩ three_slot_table = Except.error "boom" :=
  aggregation_propagates_first_failure three_slot_table ⟨0⟩
    (fun v => if v = 7 then (Except.error "boom" : Except String Nat) else Except.ok v)
    (fun acc b => acc + b) 0
    [⟨true, [5]⟩] ⟨true, [7]⟩ [⟨true, [3]⟩] "boom"
    (by decide)
    (by
      intro y hy
      rw [List.mem_singleton] at hy
      subst hy
      exact ⟨5, rfl⟩)
    rfl

/-- C6: when zero slots are initialized on the core, both aggregation entry
points resolve to the initial value unchanged, whatever the mapper and the
reducer are. -/
theorem aggregation_zero_slots_returns_initial
    {Val E B I J : Type} [Inhabited Val]
    (data : scheduling_group_specific_thread_local_data Val)
    (key : scheduling_group_key)
    (mapper : Val → Except E B) (reducer : I → B → I) (initial_val : I)
    (reducer2 : J → Val → J) (initial_val2 : J)
    (hnone : ∀ psg ∈ data.per_scheduling_group_data, psg.queue_is_initialized = false) :
    map_reduce_scheduling_group_specific mapper reducer initial_val key data
        = Except.ok initial_val
    ∧ (reduce_scheduling_group_specific reducer2 initial_val2 key data : Except E J)
        = Except.ok initial_val2 := by
  have hfil : data.per_scheduling_group_data.filter (fun psg => psg.queue_is_initialized)
      = [] := by
    refine List.filter_eq_nil_iff.2 ?_
    intro a ha
    simp [hnone a ha]
  constructor
  · unfold map_reduce_scheduling_group_specific
    rw [hfil]
    rfl
  · unfold reduce_scheduling_group_specific
    rw [hfil]
    rfl

/-- Witness for C6: a core with two uninitialized slots yields the initial
value 0 from both entry points. -/
theorem aggregation_zero_slots_returns_initial_witness :
    map_reduce_scheduling_group_specific
        (fun v => (Except.ok v : Except String Nat)) (fun acc b => acc + b) 0 ⟨0⟩
        empty_core_table
      = Except.ok 0
    ∧ (reduce_scheduling_group_specific (fun acc v => acc + v) 0 ⟨0⟩ empty_core_table
        : Except String Nat)
      = Except.ok 0 :=
  aggregation_zero_slots_returns_initial empty_core_table ⟨0⟩
    (fun v => Except.ok v) (fun acc b => acc + b) 0 (fun acc v => acc + v) 0
    (by decide)

/-- C8: reduce_scheduling_group_specific is map_reduce_scheduling_group_specific
with the identity mapper: both filter the same slots, read the same handle for
the key, wrap it in a ready future and hand the same arguments to the generic
map_reduce. -/
theorem reduce_is_map_reduce_with_identity_mapper
    {Val E I : Type} [Inhabited Val]
    (reducer : I → Val → I) (initial_val : I) (key : scheduling_group_key)
    (data : scheduling_group_specific_thread_local_data Val) :
    reduce_scheduling_group_specific reducer initial_val key data
      = map_reduce_scheduling_group_specific
          (fun v => (Except.ok v : Except E Val)) reducer initial_val key data :=
  rfl

/-- C9: the three typed accessors are pure reads: running each of their
statement-level embeddings on a table state returns exactly the value of the
corresponding pure lookup and the table state unchanged, so every initialized
flag, every stored handle and the key-config sequence are untouched. -/
theorem typed_accessors_leave_table_unchanged
    {Val : Type} [Inhabited Val]
    (s : scheduling_group_specific_thread_local_data Val)
    (sg_id current_sg : Nat) (key : scheduling_group_key) :
    (scheduling_group_get_specific_ptr_st sg_id key).run s
        = (scheduling_group_get_specific_ptr s sg_id key, s)
    ∧ (scheduling_group_get_specific_st sg_id key).run s
        = (scheduling_group_get_specific s sg_id key, s)
    ∧ (scheduling_group_get_specific_current_st current_sg key).run s
        = (scheduling_group_get_specific_current s current_sg key, s) := by
  have hptr : ∀ n : Nat,
      (scheduling_group_get_specific_ptr_st n key :
          StateM (scheduling_group_specific_thread_local_data Val) (Option Val)).run s
        = (scheduling_group_get_specific_ptr s n key, s) := by
    intro n
    simp only [scheduling_group_get_specific_ptr_st, scheduling_group_get_specific_ptr,
      StateT.run, StateT.get, bind, StateT.bind]
    split <;> rfl
  refine ⟨hptr sg_id, ?_, ?_⟩
  · show (scheduling_group_get_specific_ptr_st sg_id key >>= fun p =>
        match p with
        | none => pure access_result.fatal_no_such_group
        | some v => pure (access_result.value v)).run s = _
    rw [StateT.run_bind, hptr sg_id]
    cases hp : scheduling_group_get_specific_ptr s sg_id key <;>
      simp [scheduling_group_get_specific, hp, StateT.run, pure, StateT.pure]
  · show (scheduling_group_get_specific_ptr_st current_sg key >>= fun p =>
        match p with
        | none => pure access_result.null_deref
        | some v => pure (access_result.value v)).run s = _
    rw [StateT.run_bind, hptr current_sg]
    cases hp : scheduling_group_get_specific_ptr s current_sg key <;>
      simp [scheduling_group_get_specific_current, hp, StateT.run, pure, StateT.pure]
